import Mathlib

/-!
Shallow embedding of the `ezmlir` compilation-pipeline driver.

The repository has two near-duplicate Python drivers:
  * `ezmlir.py`  — CLI driver: reads MLIR from a file or stdin, runs the
    four-stage pipeline (optimize, lower, translate, terminal codegen) in a
    temporary directory, and emits a `.o` or `.so`;
  * `main.py`    — generates a fixed matmul-chain MLIR module, runs the same
    pipeline into an output directory, optionally links the object against
    `test_harness.c` and runs the resulting executable.

External tools (`mlir-opt`, `mlir-translate`, `llc`, `clang`) are opaque:
they are modelled by an oracle mapping a concrete command line to an exit
code, whether the tool wrote its declared output file, the content it wrote,
and what it printed on the (inherited) standard error stream.  The file
system is an association list from paths to contents.  Each driver run
returns the ordered event trace (tool invocations, file writes, removals,
directory cleanup), the final file system, the lines the driver printed on
stdout, the stderr stream (driver writes plus tool passthrough), and the
process exit code.
-/

/-- Mutable tool-path record from both sources (`class MLIRConfig`). -/
structure MLIRConfig where
  mlir_opt : String
  mlir_translate : String
  llc : String
  clang : String
  deriving DecidableEq, Repr

/-- Behaviour of one external-tool invocation, as observed by the driver:
exit status, whether the declared `-o` output file was written, the content
written there, and the bytes the tool itself put on the inherited stderr. -/
structure ToolResult where
  returncode : Nat
  writesOutput : Bool
  outputContent : String
  stderrOutput : String
  deriving DecidableEq, Repr

/-- Oracle for `subprocess.run`: what each concrete command line does. -/
def ToolEnv : Type := List String → ToolResult

/-- Behaviour of the generated test executable (`subprocess.run` with
`capture_output=True` in `run_executable`). -/
structure ExeResult where
  returncode : Nat
  stdoutText : String
  stderrText : String
  deriving DecidableEq, Repr

/-- Python exceptions the drivers can hit. -/
inductive PyError where
  | calledProcessError (returncode : Nat) (cmd : List String)
  | fileNotFoundError (path : String)
  deriving DecidableEq, Repr

/-- Observable events of a run, in order. -/
inductive Event where
  | runTool (cmd : List String)
  | writeFile (path : String)
  | removeFile (path : String)
  | cleanupDir (dir : String)
  deriving DecidableEq, Repr

/-- File system: newest binding first. -/
def FS : Type := List (String × String)

def fsWrite (fs : FS) (p c : String) : FS := (p, c) :: fs

def fsLookup : FS → String → Option String
  | [], _ => none
  | (q, c) :: fs, p => if p = q then some c else fsLookup fs p

/-- `Path.unlink()`: drop every binding of `p`. -/
def fsErase (fs : FS) (p : String) : FS := fs.filter (fun qc => qc.1 != p)

/-- `Path(dir).cleanup()`-style recursive removal of everything under `dir`. -/
def fsEraseDir (fs : FS) (dir : String) : FS :=
  fs.filter (fun qc => !((dir ++ "/").data.isPrefixOf qc.1.data))

/-- `str(Path(d) / n)`. -/
def pjoin (d n : String) : String := d ++ "/" ++ n

/-- Split a character list at every occurrence of `sep`
(the semantics of `str.split` on a one-character separator). -/
def splitChar (sep : Char) : List Char → List (List Char)
  | [] => [[]]
  | c :: cs =>
    let r := splitChar sep cs
    if c = sep then [] :: r
    else match r with
      | [] => [[c]]
      | g :: gs => (c :: g) :: gs

/-- Join string pieces with a dot separator. -/
def joinWithDot : List String → String
  | [] => ""
  | [s] => s
  | s :: rest => s ++ "." ++ joinWithDot rest

/-- `Path(p).stem`: final path component without its last extension
(a leading dot alone does not count as an extension separator). -/
def pathStem (p : String) : String :=
  let name := match (splitChar (Char.ofNat 47) p.data).getLast? with
    | some cs => String.mk cs
    | none => p
  let parts := (splitChar (Char.ofNat 46) name.data).map String.mk
  if parts.length ≤ 1 then name
  else
    let stem := joinWithDot parts.dropLast
    if stem = "" then name else stem

/-- Driver state threaded through a run. -/
structure PipeState where
  fs : FS
  events : List Event
  stdoutLines : List String
  stderrLines : List String

/-- `print(s)`: one line on the driver's stdout. -/
def pr (s : String) (st : PipeState) : PipeState :=
  { st with stdoutLines := st.stdoutLines ++ [s] }

/-- `open(path, "w"); f.write(contents)`. -/
def fsWriteSt (path contents : String) (st : PipeState) : PipeState :=
  { st with fs := fsWrite st.fs path contents,
            events := st.events ++ [Event.writeFile path] }

/-- `subprocess.run(cmd, check=True)` for a stage whose declared output file
is `outputFile`: the tool runs (its writes and stderr passthrough happen
regardless of status), then a non-zero status raises `CalledProcessError`. -/
def runToolStage (env : ToolEnv) (cmd : List String) (outputFile : String)
    (st : PipeState) : Except (PyError × PipeState) PipeState :=
  let r := env cmd
  let st := { st with events := st.events ++ [Event.runTool cmd],
                      stderrLines := st.stderrLines ++ [r.stderrOutput],
                      fs := if r.writesOutput then fsWrite st.fs outputFile r.outputContent else st.fs }
  if r.returncode = 0 then Except.ok st
  else Except.error (PyError.calledProcessError r.returncode cmd, st)

/-- `open(path, "r"); f.read()`: raises `FileNotFoundError` when absent. -/
def readFileStep (path : String) (st : PipeState) :
    Except (PyError × PipeState) (String × PipeState) :=
  match fsLookup st.fs path with
  | some c => Except.ok (c, st)
  | none => Except.error (PyError.fileNotFoundError path, st)

/-- Argument list built by `optimize_mlir` (identical in both sources). -/
def optimize_mlir_cmd (input_file output_file : String) (config : MLIRConfig) : List String :=
  [config.mlir_opt, input_file,
   "--canonicalize",
   "--linalg-fuse-elementwise-ops",
   "--cse",
   "--linalg-generalize-named-ops",
   "--convert-linalg-to-loops",
   "-o", output_file]

/-- Argument list built by `lower_to_llvm_dialect` (identical in both sources). -/
def lower_to_llvm_dialect_cmd (input_file output_file : String) (config : MLIRConfig) : List String :=
  [config.mlir_opt, input_file,
   "--one-shot-bufferize=bufferize-function-boundaries=1",
   "--convert-linalg-to-loops",
   "--convert-scf-to-cf",
   "--expand-strided-metadata",
   "--lower-affine",
   "--finalize-memref-to-llvm",
   "--convert-arith-to-llvm",
   "--convert-func-to-llvm",
   "--convert-cf-to-llvm",
   "--reconcile-unrealized-casts",
   "-o", output_file]

/-- Argument list built by `translate_to_llvm_ir` (identical in both sources). -/
def translate_to_llvm_ir_cmd (input_file output_file : String) (config : MLIRConfig) : List String :=
  [config.mlir_translate, input_file, "--mlir-to-llvmir", "-o", output_file]

/-- Argument list built by `compile_to_object` (identical in both sources). -/
def compile_to_object_cmd (llvm_ir_file obj_file : String) (config : MLIRConfig) : List String :=
  [config.llc, "-filetype=obj", llvm_ir_file, "-o", obj_file]

/-- Argument list built by `compile_to_shared_lib` (`ezmlir.py` only). -/
def compile_to_shared_lib_cmd (llvm_ir_file so_file : String) (config : MLIRConfig) : List String :=
  [config.clang, "-shared", "-fPIC", llvm_ir_file, "-o", so_file]

/-- Argument list built by `create_executable` (`main.py` only). -/
def create_executable_cmd (obj_file harness_file exe_file : String) (config : MLIRConfig) : List String :=
  [config.clang, harness_file, obj_file, "-o", exe_file]

/-- Python `repr` of a list of strings, as interpolated into
`CalledProcessError.__str__`. -/
def pyListRepr (cmd : List String) : String :=
  "[" ++ String.intercalate ", " (cmd.map (fun s => "\x27" ++ s ++ "\x27")) ++ "]"

/-- `str(CalledProcessError(returncode, cmd))`. -/
def calledProcessErrorStr (returncode : Nat) (cmd : List String) : String :=
  "Command \x27" ++ pyListRepr cmd ++ "\x27 returned non-zero exit status " ++
    toString returncode ++ "."

/-- `str(FileNotFoundError)` for a missing file opened for reading. -/
def fileNotFoundErrorStr (path : String) : String :=
  "[Errno 2] No such file or directory: \x27" ++ path ++ "\x27"

/-- The tool invocations of a trace, in order. -/
def toolCmds (evs : List Event) : List (List String) :=
  evs.filterMap (fun e => match e with
    | Event.runTool c => some c
    | _ => none)

/-- The paths removed by per-file cleanup, in order. -/
def removedPaths (evs : List Event) : List String :=
  evs.filterMap (fun e => match e with
    | Event.removeFile p => some p
    | _ => none)

/-!
## Model of `ezmlir.py`

`main()` of `ezmlir.py`: argument record, tool resolution, input reading,
the try-block pipeline body, the except clauses and the finally cleanup.
-/

/-- Parsed CLI arguments of `ezmlir.py` (`argparse` result).  Optional
string arguments default to `none`; `suffix` defaults to `""`. -/
structure EzArgs where
  input : String
  output : String
  suffix : String
  mlir_opt : Option String
  mlir_translate : Option String
  llc : Option String
  clang : Option String
  temp_dir : Option String
  shared_lib : Bool
  deriving DecidableEq, Repr

/-- Python `x or y` for an optional-string CLI argument: `None` and the
empty string are both falsy and fall through to the default. -/
def pyOr (x : Option String) (y : String) : String :=
  match x with
  | some s => if s = "" then y else s
  | none => y

/-- Lines 78-82 of `ezmlir.py`: build the `MLIRConfig` from overrides and
the global suffix. -/
def resolveConfig (args : EzArgs) : MLIRConfig where
  mlir_opt := pyOr args.mlir_opt ("mlir-opt" ++ args.suffix)
  mlir_translate := pyOr args.mlir_translate ("mlir-translate" ++ args.suffix)
  llc := pyOr args.llc ("llc" ++ args.suffix)
  clang := pyOr args.clang ("clang" ++ args.suffix)

/-- Lines 84-89 of `ezmlir.py`: read the MLIR source from stdin when the
input argument is the sentinel `-`, else from the named file. -/
def readInputArg (input stdinContent : String) (fs : FS) : Except PyError String :=
  if input = "-" then Except.ok stdinContent
  else match fsLookup fs input with
    | some contents => Except.ok contents
    | none => Except.error (PyError.fileNotFoundError input)

/-- The try-block body of `ezmlir.py`'s `main` (lines 101-157): write the
source, run the four stages threading each output into the next input,
with the read-backs and prints of the source. -/
def ezmlirBody (env : ToolEnv) (config : MLIRConfig) (output : String) (shared_lib : Bool)
    (mlir_code : String) (tempPath : String) (st : PipeState) :
    Except (PyError × PipeState) PipeState :=
  let st := pr ("Using temporary directory: " ++ tempPath) st
  let base_name := pathStem output
  let original_mlir := pjoin tempPath "original.mlir"
  let st := fsWriteSt original_mlir mlir_code st
  let st := pr "Original MLIR:" st
  let st := pr mlir_code st
  let st := pr "" st
  let st := pr "Optimizing MLIR..." st
  let optimized_mlir := pjoin tempPath "optimized.mlir"
  match runToolStage env (optimize_mlir_cmd original_mlir optimized_mlir config) optimized_mlir st with
  | Except.error es => Except.error es
  | Except.ok st =>
  match readFileStep optimized_mlir st with
  | Except.error es => Except.error es
  | Except.ok (optimized_code, st) =>
  let st := pr "After optimization:" st
  let st := pr optimized_code st
  let st := pr "" st
  let st := pr "Lowering to LLVM dialect..." st
  let lowered_mlir := pjoin tempPath "lowered.mlir"
  match runToolStage env (lower_to_llvm_dialect_cmd optimized_mlir lowered_mlir config) lowered_mlir st with
  | Except.error es => Except.error es
  | Except.ok st =>
  let st := pr "Translating to LLVM IR..." st
  let llvm_ir_file := pjoin tempPath (base_name ++ ".ll")
  match runToolStage env (translate_to_llvm_ir_cmd lowered_mlir llvm_ir_file config) llvm_ir_file st with
  | Except.error es => Except.error es
  | Except.ok st =>
  match readFileStep llvm_ir_file st with
  | Except.error es => Except.error es
  | Except.ok (llvm_ir, st) =>
  let st := pr "LLVM IR (first 500 chars):" st
  let st := pr (if llvm_ir.length > 500 then llvm_ir.take 500 ++ "..." else llvm_ir) st
  let st := pr "" st
  if shared_lib then
    let st := pr "Compiling to shared library..." st
    match runToolStage env (compile_to_shared_lib_cmd llvm_ir_file output config) output st with
    | Except.error es => Except.error es
    | Except.ok st => Except.ok (pr ("Shared library generated: " ++ output) st)
  else
    let st := pr "Compiling to object file..." st
    match runToolStage env (compile_to_object_cmd llvm_ir_file output config) output st with
    | Except.error es => Except.error es
    | Except.ok st => Except.ok (pr ("Object file generated: " ++ output) st)

/-- The workspace path selected by lines 92-105 of `ezmlir.py`: the explicit
`--temp-dir` when given, else the (unique) ephemeral directory created by
`tempfile.TemporaryDirectory()`, whose name the model takes as a parameter. -/
def tempPathOf (temp_dir : Option String) (ephemeralDir : String) : String :=
  match temp_dir with
  | some d => d
  | none => ephemeralDir

/-- Lines 165-168 of `ezmlir.py`: the finally block removes the ephemeral
directory (recursively) exactly when the driver created it. -/
def runCleanup (cleanup_temp : Bool) (tempPath : String) (st : PipeState) : PipeState :=
  if cleanup_temp then
    { st with fs := fsEraseDir st.fs tempPath,
              events := st.events ++ [Event.cleanupDir tempPath] }
  else st

/-- The except clauses of `ezmlir.py` (lines 159-164): print the exception
on stdout, then `sys.exit(1)`. -/
def printEzError (e : PyError) (st : PipeState) : PipeState :=
  match e with
  | PyError.calledProcessError rc cmd =>
      pr ("Error running command: " ++ calledProcessErrorStr rc cmd) st
  | PyError.fileNotFoundError p =>
      pr ("Error: " ++ fileNotFoundErrorStr p) st

/-- Result of one `ezmlir.py` run.  `finallyRan` records that the
try/except/finally in `main` was entered and its finally block executed. -/
structure RunResult where
  events : List Event
  fs : FS
  stdoutLines : List String
  stderrLines : List String
  exitCode : Nat
  finallyRan : Bool

/-- The part of `ezmlir.py`'s `main` after the input is read: workspace
selection, the try-block body, the except clauses, the finally cleanup and
the process exit status. -/
def ezmlirAfterRead (env : ToolEnv) (config : MLIRConfig) (temp_dir : Option String)
    (output : String) (shared_lib : Bool) (mlir_code : String) (fs0 : FS)
    (ephemeralDir : String) : RunResult :=
  let tempPath := tempPathOf temp_dir ephemeralDir
  let cleanup_temp := match temp_dir with
    | some _ => false
    | none => true
  let st0 : PipeState := { fs := fs0, events := [], stdoutLines := [], stderrLines := [] }
  match ezmlirBody env config output shared_lib mlir_code tempPath st0 with
  | Except.ok st =>
      let st := runCleanup cleanup_temp tempPath st
      { events := st.events, fs := st.fs, stdoutLines := st.stdoutLines,
        stderrLines := st.stderrLines, exitCode := 0, finallyRan := true }
  | Except.error (e, st) =>
      let st := printEzError e st
      let st := runCleanup cleanup_temp tempPath st
      { events := st.events, fs := st.fs, stdoutLines := st.stdoutLines,
        stderrLines := st.stderrLines, exitCode := 1, finallyRan := true }

/-- `main()` of `ezmlir.py`.  An unreadable input file raises before the
try block: the Python traceback lands on stderr and the process exits 1
without entering the pipeline. -/
def ezmlirMain (env : ToolEnv) (args : EzArgs) (stdinContent : String) (fs0 : FS)
    (ephemeralDir : String) : RunResult :=
  let config := resolveConfig args
  match readInputArg args.input stdinContent fs0 with
  | Except.error _ =>
      { events := [], fs := fs0, stdoutLines := [],
        stderrLines := ["FileNotFoundError: " ++ fileNotFoundErrorStr args.input],
        exitCode := 1, finallyRan := false }
  | Except.ok mlir_code =>
      ezmlirAfterRead env config args.temp_dir args.output args.shared_lib mlir_code fs0 ephemeralDir

/-- The four stage command lines of one `ezmlir.py` run, as determined by
the resolved config, the workspace path, the output name and the mode. -/
def ezStageCmds (config : MLIRConfig) (tempPath output : String) (shared_lib : Bool) :
    List (List String) :=
  [optimize_mlir_cmd (pjoin tempPath "original.mlir") (pjoin tempPath "optimized.mlir") config,
   lower_to_llvm_dialect_cmd (pjoin tempPath "optimized.mlir") (pjoin tempPath "lowered.mlir") config,
   translate_to_llvm_ir_cmd (pjoin tempPath "lowered.mlir") (pjoin tempPath (pathStem output ++ ".ll")) config,
   if shared_lib then
     compile_to_shared_lib_cmd (pjoin tempPath (pathStem output ++ ".ll")) output config
   else
     compile_to_object_cmd (pjoin tempPath (pathStem output ++ ".ll")) output config]

/-!
## Model of `main.py`

The matmul-chain driver: fixed generated source, the same four stages into
an output directory, an optional link-and-execute step guarded on the
existence of `test_harness.c`, per-file tracked cleanup in the finally
block.  Braces of the embedded MLIR template are written as escapes.
-/

/-- The fixed MLIR module returned by `create_matmul_chain_mlir`. -/
def create_matmul_chain_mlir : String :=
  ("\nmodule \x7b\n  func.func @matmul_chain(%arg0: tensor<4x8xf32>, %arg1: tensor<8x16xf32>, %arg2: tensor<16x16xf32>) -> tensor<4x16xf32> \x7b\n    %0 = tensor.empty() : tensor<4x16xf32>\n    %1 = linalg.matmul ins(%arg0, %arg1 : tensor<4x8xf32>, tensor<8x16xf32>) outs(%0 : tensor<4x16xf32>) -> tensor<4x16xf32>\n    %2 = tensor.empty() : tensor<4x16xf32>\n    %3 = linalg.matmul ins(%1, %arg2 : tensor<4x16xf32>, tensor<16x16xf32>) outs(%2 : tensor<4x16xf32>) -> tensor<4x16xf32>\n    return %3 : tensor<4x16xf32>\n  \x7d\n\x7d\n").trim

/-- Parsed CLI arguments of `main.py`.  The four tool arguments carry their
argparse defaults (`mlir-opt`, `mlir-translate`, `llc`, `clang`) when not
overridden, so they are plain strings here. -/
structure MainArgs where
  mlir_opt : String
  mlir_translate : String
  llc : String
  clang : String
  keep_temps : Bool
  output_dir : String
  deriving DecidableEq, Repr

/-- Outcome of `main.py`'s try block: the exception (if one was raised),
the driver state, the tracked temporary-file list as it stood when the try
block was left, and the captured output of the optional executable run. -/
structure BodyOut where
  err : Option PyError
  st : PipeState
  temp_files : List String
  execResult : Option ExeResult

/-- The try-block body of `main.py`'s `main` (lines 105-169). -/
def mainPyBody (env : ToolEnv) (exeEnv : String → ExeResult) (config : MLIRConfig)
    (output_dir : String) (fs0 : FS) : BodyOut :=
  let st : PipeState := { fs := fs0, events := [], stdoutLines := [], stderrLines := [] }
  let st := pr "Generating MLIR code..." st
  let mlir_code := create_matmul_chain_mlir
  let original_mlir := pjoin output_dir "original.mlir"
  let st := fsWriteSt original_mlir mlir_code st
  let temp_files := [original_mlir]
  let st := pr "Original MLIR:" st
  let st := pr mlir_code st
  let st := pr "" st
  let st := pr "Optimizing MLIR..." st
  let optimized_mlir := pjoin output_dir "optimized.mlir"
  match runToolStage env (optimize_mlir_cmd original_mlir optimized_mlir config) optimized_mlir st with
  | Except.error (e, st) => { err := some e, st := st, temp_files := temp_files, execResult := none }
  | Except.ok st =>
  let temp_files := temp_files ++ [optimized_mlir]
  match readFileStep optimized_mlir st with
  | Except.error (e, st) => { err := some e, st := st, temp_files := temp_files, execResult := none }
  | Except.ok (optimized_code, st) =>
  let st := pr "After optimization:" st
  let st := pr optimized_code st
  let st := pr "" st
  let st := pr "Lowering to LLVM dialect..." st
  let lowered_mlir := pjoin output_dir "lowered.mlir"
  match runToolStage env (lower_to_llvm_dialect_cmd optimized_mlir lowered_mlir config) lowered_mlir st with
  | Except.error (e, st) => { err := some e, st := st, temp_files := temp_files, execResult := none }
  | Except.ok st =>
  let temp_files := temp_files ++ [lowered_mlir]
  let st := pr "Translating to LLVM IR..." st
  let llvm_ir_file := pjoin output_dir "matmul_chain.ll"
  match runToolStage env (translate_to_llvm_ir_cmd lowered_mlir llvm_ir_file config) llvm_ir_file st with
  | Except.error (e, st) => { err := some e, st := st, temp_files := temp_files, execResult := none }
  | Except.ok st =>
  match readFileStep llvm_ir_file st with
  | Except.error (e, st) => { err := some e, st := st, temp_files := temp_files, execResult := none }
  | Except.ok (llvm_ir, st) =>
  let st := pr "LLVM IR (first 500 chars):" st
  let st := pr (if llvm_ir.length > 500 then llvm_ir.take 500 ++ "..." else llvm_ir) st
  let st := pr "" st
  let st := pr "Compiling to object file..." st
  let obj_file := pjoin output_dir "matmul_chain.o"
  match runToolStage env (compile_to_object_cmd llvm_ir_file obj_file config) obj_file st with
  | Except.error (e, st) => { err := some e, st := st, temp_files := temp_files, execResult := none }
  | Except.ok st =>
  let st := pr ("Object file generated: " ++ obj_file) st
  if (fsLookup st.fs "test_harness.c").isSome then
    let st := pr "Creating executable..." st
    let exe_file := pjoin output_dir "matmul_test"
    match runToolStage env (create_executable_cmd obj_file "test_harness.c" exe_file config) exe_file st with
    | Except.error (e, st) => { err := some e, st := st, temp_files := temp_files, execResult := none }
    | Except.ok st =>
    let st := pr ("Executable generated: " ++ exe_file) st
    let st := pr "\nRunning the test:" st
    if (fsLookup st.fs exe_file).isSome then
      let result := exeEnv ("./" ++ exe_file)
      let st := pr result.stdoutText st
      let st := if result.stderrText != "" then pr ("Errors: " ++ result.stderrText) st else st
      { err := none, st := st, temp_files := temp_files, execResult := some result }
    else
      { err := some (PyError.fileNotFoundError ("./" ++ exe_file)), st := st,
        temp_files := temp_files, execResult := none }
  else
    let st := pr "Test harness (test_harness.c) not found, skipping executable creation" st
    { err := none, st := st, temp_files := temp_files, execResult := none }

/-- Lines 177-182 of `main.py`: unlink each tracked file that exists. -/
def cleanupFiles : List String → PipeState → PipeState
  | [], st => st
  | f :: files, st =>
    if (fsLookup st.fs f).isSome then
      cleanupFiles files
        { st with fs := fsErase st.fs f, events := st.events ++ [Event.removeFile f] }
    else cleanupFiles files st

/-- Result of one `main.py` run. -/
structure MainRunResult where
  events : List Event
  fs : FS
  stdoutLines : List String
  stderrLines : List String
  exitCode : Nat
  executionOutput : Option ExeResult

/-- The except clauses of `main.py` (lines 171-176): print the exception
on stdout when one was raised (then `sys.exit(1)`). -/
def printMainError (e? : Option PyError) (st : PipeState) : PipeState :=
  match e? with
  | none => st
  | some (PyError.calledProcessError rc cmd) =>
      pr ("Error running command: " ++ calledProcessErrorStr rc cmd) st
  | some (PyError.fileNotFoundError p) =>
      pr ("Error: " ++ fileNotFoundErrorStr p) st

/-- `main()` of `main.py`: build the config from the arguments, run the try
block, print any exception on stdout (then `sys.exit(1)`), and in the
finally block remove the tracked files unless `--keep-temps`. -/
def mainPyMain (env : ToolEnv) (exeEnv : String → ExeResult) (args : MainArgs)
    (fs0 : FS) : MainRunResult :=
  let config : MLIRConfig :=
    { mlir_opt := args.mlir_opt, mlir_translate := args.mlir_translate,
      llc := args.llc, clang := args.clang }
  let b := mainPyBody env exeEnv config args.output_dir fs0
  let st := printMainError b.err b.st
  let st := if args.keep_temps then st else cleanupFiles b.temp_files st
  { events := st.events, fs := st.fs, stdoutLines := st.stdoutLines,
    stderrLines := st.stderrLines,
    exitCode := match b.err with
      | none => 0
      | some _ => 1,
    executionOutput := b.execResult }

/-!
## Concrete fixtures used by the witnesses and counterexamples
-/

/-- A tool chain in which every invocation succeeds and writes its output. -/
def allOkEnv : ToolEnv := fun _ =>
  { returncode := 0, writesOutput := true, outputContent := "tool-output", stderrOutput := "" }

/-- A typical `ezmlir.py` invocation: stdin input, object-file mode,
ephemeral workspace, no overrides. -/
def ezArgsStdinObj : EzArgs :=
  { input := "-", output := "out.o", suffix := "", mlir_opt := none, mlir_translate := none,
    llc := none, clang := none, temp_dir := none, shared_lib := false }

/-- The same invocation reading from a named file instead of stdin. -/
def ezArgsFileObj : EzArgs :=
  { input := "in.mlir", output := "out.o", suffix := "", mlir_opt := none, mlir_translate := none,
    llc := none, clang := none, temp_dir := none, shared_lib := false }

/-- The same invocation in shared-library mode. -/
def ezArgsStdinShared : EzArgs :=
  { input := "-", output := "lib.so", suffix := "", mlir_opt := none, mlir_translate := none,
    llc := none, clang := none, temp_dir := none, shared_lib := true }

/-- A typical `main.py` invocation: argparse defaults for the tools,
cleanup enabled, output directory `build`. -/
def mainArgsDefault : MainArgs :=
  { mlir_opt := "mlir-opt", mlir_translate := "mlir-translate", llc := "llc", clang := "clang",
    keep_temps := false, output_dir := "build" }

/-- A harness executable that exits with the non-zero status 3. -/
def exeEnvNonzero : String → ExeResult := fun _ =>
  { returncode := 3, stdoutText := "harness output", stderrText := "" }

/-- A tool chain whose terminal object-code invocation exits 2 after
writing a partial object file; every other invocation succeeds. -/
def failObjectWriteEnv : ToolEnv := fun c =>
  if c.getD 1 "" = "-filetype=obj" then
    { returncode := 2, writesOutput := true, outputContent := "partial object", stderrOutput := "llc error" }
  else
    { returncode := 0, writesOutput := true, outputContent := "tool-output", stderrOutput := "" }

/-- A tool chain whose optimize invocation (recognised by its
`--canonicalize` flag in position 2) exits with status 2 and writes
nothing; every other invocation succeeds. -/
def failOptimizeEnv : ToolEnv := fun c =>
  if c.getD 2 "" = "--canonicalize" then
    { returncode := 2, writesOutput := false, outputContent := "", stderrOutput := "optimize error" }
  else
    { returncode := 0, writesOutput := true, outputContent := "tool-output", stderrOutput := "" }

/-!
## Supporting lemmas
-/

theorem fsLookup_fsWrite_self (fs : FS) (p c : String) :
    fsLookup (fsWrite fs p c) p = some c := by
  simp [fsWrite, fsLookup]

theorem fsLookup_fsWrite_ne (fs : FS) (p q c : String) (h : q ≠ p) :
    fsLookup (fsWrite fs p c) q = fsLookup fs q := by
  simp [fsWrite, fsLookup, h]

theorem toolCmds_append (a b : List Event) :
    toolCmds (a ++ b) = toolCmds a ++ toolCmds b := by
  simp [toolCmds]

theorem removedPaths_append (a b : List Event) :
    removedPaths (a ++ b) = removedPaths a ++ removedPaths b := by
  simp [removedPaths]

/-!
## Claim C1
-/

/-- Claim C1: in every run of `ezmlir.py`'s `main` in which reading the
input succeeds and every external tool exits 0 and writes its declared
output, the driver invokes exactly the four stages optimize,
lower-to-LLVM-dialect, translate-to-LLVM-IR and terminal codegen, in that
order, each stage's input path being exactly the preceding stage's output
path, with the optimize stage consuming the `original.mlir` file the
driver wrote; the run exits 0. -/
theorem claim1_stage_order_and_threading (env : ToolEnv) (args : EzArgs)
    (stdinContent : String) (fs0 : FS) (ephemeralDir : String) (mlir_code : String)
    (hread : readInputArg args.input stdinContent fs0 = Except.ok mlir_code)
    (henv : ∀ c, (env c).returncode = 0 ∧ (env c).writesOutput = true) :
    toolCmds (ezmlirMain env args stdinContent fs0 ephemeralDir).events =
      [optimize_mlir_cmd
         (pjoin (tempPathOf args.temp_dir ephemeralDir) "original.mlir")
         (pjoin (tempPathOf args.temp_dir ephemeralDir) "optimized.mlir")
         (resolveConfig args),
       lower_to_llvm_dialect_cmd
         (pjoin (tempPathOf args.temp_dir ephemeralDir) "optimized.mlir")
         (pjoin (tempPathOf args.temp_dir ephemeralDir) "lowered.mlir")
         (resolveConfig args),
       translate_to_llvm_ir_cmd
         (pjoin (tempPathOf args.temp_dir ephemeralDir) "lowered.mlir")
         (pjoin (tempPathOf args.temp_dir ephemeralDir) (pathStem args.output ++ ".ll"))
         (resolveConfig args),
       if args.shared_lib then
         compile_to_shared_lib_cmd
           (pjoin (tempPathOf args.temp_dir ephemeralDir) (pathStem args.output ++ ".ll"))
           args.output (resolveConfig args)
       else
         compile_to_object_cmd
           (pjoin (tempPathOf args.temp_dir ephemeralDir) (pathStem args.output ++ ".ll"))
           args.output (resolveConfig args)] ∧
    Event.writeFile (pjoin (tempPathOf args.temp_dir ephemeralDir) "original.mlir") ∈
      (ezmlirMain env args stdinContent fs0 ephemeralDir).events ∧
    (ezmlirMain env args stdinContent fs0 ephemeralDir).exitCode = 0 := by
  have hrc : ∀ c, (env c).returncode = 0 := fun c => (henv c).1
  have hw : ∀ c, (env c).writesOutput = true := fun c => (henv c).2
  rcases args with ⟨inp, out, suf, mo, mt, ml, mc, td, sl⟩
  simp only [ezmlirMain] at *
  rw [hread]
  rcases td with _ | d <;> rcases sl <;>
    simp [ezmlirAfterRead, ezmlirBody, runToolStage, readFileStep, pr, fsWriteSt,
      hrc, hw, fsLookup_fsWrite_self, fsWrite, fsLookup, runCleanup, tempPathOf,
      toolCmds, pjoin]

/-- Witness for C1 at a concrete input: stdin source, all tools succeed. -/
theorem claim1_stage_order_and_threading_witness :
    toolCmds (ezmlirMain allOkEnv ezArgsStdinObj "mlir src" [] "E").events =
      [optimize_mlir_cmd
         (pjoin (tempPathOf ezArgsStdinObj.temp_dir "E") "original.mlir")
         (pjoin (tempPathOf ezArgsStdinObj.temp_dir "E") "optimized.mlir")
         (resolveConfig ezArgsStdinObj),
       lower_to_llvm_dialect_cmd
         (pjoin (tempPathOf ezArgsStdinObj.temp_dir "E") "optimized.mlir")
         (pjoin (tempPathOf ezArgsStdinObj.temp_dir "E") "lowered.mlir")
         (resolveConfig ezArgsStdinObj),
       translate_to_llvm_ir_cmd
         (pjoin (tempPathOf ezArgsStdinObj.temp_dir "E") "lowered.mlir")
         (pjoin (tempPathOf ezArgsStdinObj.temp_dir "E") (pathStem ezArgsStdinObj.output ++ ".ll"))
         (resolveConfig ezArgsStdinObj),
       if ezArgsStdinObj.shared_lib then
         compile_to_shared_lib_cmd
           (pjoin (tempPathOf ezArgsStdinObj.temp_dir "E") (pathStem ezArgsStdinObj.output ++ ".ll"))
           ezArgsStdinObj.output (resolveConfig ezArgsStdinObj)
       else
         compile_to_object_cmd
           (pjoin (tempPathOf ezArgsStdinObj.temp_dir "E") (pathStem ezArgsStdinObj.output ++ ".ll"))
           ezArgsStdinObj.output (resolveConfig ezArgsStdinObj)] ∧
    Event.writeFile (pjoin (tempPathOf ezArgsStdinObj.temp_dir "E") "original.mlir") ∈
      (ezmlirMain allOkEnv ezArgsStdinObj "mlir src" [] "E").events ∧
    (ezmlirMain allOkEnv ezArgsStdinObj "mlir src" [] "E").exitCode = 0 :=
  claim1_stage_order_and_threading allOkEnv ezArgsStdinObj "mlir src" [] "E" "mlir src"
    rfl (fun _ => ⟨rfl, rfl⟩)

/-!
## Claim C2
-/

set_option maxRecDepth 2000 in
set_option maxHeartbeats 2000000 in
/-- Claim C2: whichever of the four stages is the first whose tool exits
non-zero, `ezmlir.py` invokes no subsequent stage (the trace is exactly
the stage list cut at the failing stage), the `CalledProcessError`
propagates to `main`'s boundary so the process exits 1, and the finally
block still runs — removing the ephemeral workspace when the driver
created it. -/
theorem claim2_failure_aborts (env : ToolEnv) (args : EzArgs) (stdinContent : String)
    (fs0 : FS) (ephemeralDir : String) (mlir_code : String) (k : Nat)
    (C : MLIRConfig) (T : String) (L : List (List String)) (r : RunResult)
    (hC : C = resolveConfig args) (hT : T = tempPathOf args.temp_dir ephemeralDir)
    (hL : L = ezStageCmds C T args.output args.shared_lib)
    (hr : r = ezmlirMain env args stdinContent fs0 ephemeralDir)
    (hread : readInputArg args.input stdinContent fs0 = Except.ok mlir_code)
    (hk : k ≠ 0) :
    ((env (L.getD 0 [])).returncode = k →
       toolCmds r.events = L.take 1 ∧ r.exitCode = 1 ∧ r.finallyRan = true ∧
       (args.temp_dir = none → Event.cleanupDir ephemeralDir ∈ r.events)) ∧
    ((env (L.getD 0 [])).returncode = 0 → (env (L.getD 0 [])).writesOutput = true →
     (env (L.getD 1 [])).returncode = k →
       toolCmds r.events = L.take 2 ∧ r.exitCode = 1 ∧ r.finallyRan = true ∧
       (args.temp_dir = none → Event.cleanupDir ephemeralDir ∈ r.events)) ∧
    ((env (L.getD 0 [])).returncode = 0 → (env (L.getD 0 [])).writesOutput = true →
     (env (L.getD 1 [])).returncode = 0 →
     (env (L.getD 2 [])).returncode = k →
       toolCmds r.events = L.take 3 ∧ r.exitCode = 1 ∧ r.finallyRan = true ∧
       (args.temp_dir = none → Event.cleanupDir ephemeralDir ∈ r.events)) ∧
    ((env (L.getD 0 [])).returncode = 0 → (env (L.getD 0 [])).writesOutput = true →
     (env (L.getD 1 [])).returncode = 0 →
     (env (L.getD 2 [])).returncode = 0 → (env (L.getD 2 [])).writesOutput = true →
     (env (L.getD 3 [])).returncode = k →
       toolCmds r.events = L.take 4 ∧ r.exitCode = 1 ∧ r.finallyRan = true ∧
       (args.temp_dir = none → Event.cleanupDir ephemeralDir ∈ r.events)) := by
  subst hC hT hL hr
  rcases args with ⟨inp, out, suf, mo, mt, ml, mc, td, sl⟩
  simp only [ezmlirMain]
  rw [hread]
  rcases td with _ | d <;> rcases sl <;>
    refine ⟨fun h1 => ?_, fun h1 h1w h2 => ?_, fun h1 h1w h2 h3 => ?_,
            fun h1 h1w h2 h3 h3w h4 => ?_⟩ <;>
    simp only [ezStageCmds, List.getD, List.get?, Option.getD, tempPathOf, pjoin,
      Bool.false_eq_true, if_true, if_false, ite_true, ite_false] at * <;>
    simp [ezmlirAfterRead, ezmlirBody, runToolStage, readFileStep, pr, fsWriteSt,
      hk, fsLookup_fsWrite_self, fsWrite, fsLookup, runCleanup, tempPathOf,
      toolCmds, pjoin, printEzError, ezStageCmds, *]

/-- Witness for C2: the optimize tool exits 2; only the optimize stage is
invoked, the process exits 1, and the ephemeral workspace is cleaned up. -/
theorem claim2_failure_aborts_witness :
    toolCmds (ezmlirMain failOptimizeEnv ezArgsStdinObj "src" [] "E").events =
      (ezStageCmds (resolveConfig ezArgsStdinObj) (tempPathOf ezArgsStdinObj.temp_dir "E")
        ezArgsStdinObj.output ezArgsStdinObj.shared_lib).take 1 ∧
    (ezmlirMain failOptimizeEnv ezArgsStdinObj "src" [] "E").exitCode = 1 ∧
    (ezmlirMain failOptimizeEnv ezArgsStdinObj "src" [] "E").finallyRan = true ∧
    Event.cleanupDir "E" ∈ (ezmlirMain failOptimizeEnv ezArgsStdinObj "src" [] "E").events := by
  have h := claim2_failure_aborts failOptimizeEnv ezArgsStdinObj "src" [] "E" "src" 2
    (resolveConfig ezArgsStdinObj) (tempPathOf ezArgsStdinObj.temp_dir "E")
    (ezStageCmds (resolveConfig ezArgsStdinObj) (tempPathOf ezArgsStdinObj.temp_dir "E")
      ezArgsStdinObj.output ezArgsStdinObj.shared_lib)
    (ezmlirMain failOptimizeEnv ezArgsStdinObj "src" [] "E")
    rfl rfl rfl rfl rfl (by decide)
  have h1 := h.1 (by decide)
  exact ⟨h1.1, h1.2.1, h1.2.2.1, h1.2.2.2 rfl⟩

theorem slash_mem_pjoin (d n : String) : (Char.ofNat 47) ∈ (pjoin d n).data := by
  have h : (pjoin d n).data = (d.data ++ [Char.ofNat 47]) ++ n.data := rfl
  rw [h]; simp

theorem ne_pjoin_of_no_slash (s d n : String) (h : ¬ (Char.ofNat 47) ∈ s.data) :
    s ≠ pjoin d n := by
  intro he
  apply h
  rw [he]
  exact slash_mem_pjoin d n

/-!
## Claim C3
-/

set_option maxRecDepth 2000 in
set_option maxHeartbeats 1000000 in
/-- Claim C3: on a successful run of `ezmlir.py`, shared-library mode makes
the terminal stage the clang `-shared -fPIC` link command and the llc
`-filetype=obj` command is never invoked, and object-file mode makes the
terminal stage the llc `-filetype=obj` command and the clang shared-library
command is never invoked. -/
theorem claim3_mode_selects_terminal_stage (env : ToolEnv) (args : EzArgs)
    (stdinContent : String) (fs0 : FS) (ephemeralDir : String) (mlir_code : String)
    (C : MLIRConfig) (T : String) (r : RunResult)
    (hC : C = resolveConfig args) (hT : T = tempPathOf args.temp_dir ephemeralDir)
    (hr : r = ezmlirMain env args stdinContent fs0 ephemeralDir)
    (hread : readInputArg args.input stdinContent fs0 = Except.ok mlir_code)
    (henv : ∀ c, (env c).returncode = 0 ∧ (env c).writesOutput = true) :
    (args.shared_lib = true →
       toolCmds r.events =
         [optimize_mlir_cmd (pjoin T "original.mlir") (pjoin T "optimized.mlir") C,
          lower_to_llvm_dialect_cmd (pjoin T "optimized.mlir") (pjoin T "lowered.mlir") C,
          translate_to_llvm_ir_cmd (pjoin T "lowered.mlir") (pjoin T (pathStem args.output ++ ".ll")) C,
          compile_to_shared_lib_cmd (pjoin T (pathStem args.output ++ ".ll")) args.output C] ∧
       compile_to_object_cmd (pjoin T (pathStem args.output ++ ".ll")) args.output C ∉
         toolCmds r.events) ∧
    (args.shared_lib = false →
       toolCmds r.events =
         [optimize_mlir_cmd (pjoin T "original.mlir") (pjoin T "optimized.mlir") C,
          lower_to_llvm_dialect_cmd (pjoin T "optimized.mlir") (pjoin T "lowered.mlir") C,
          translate_to_llvm_ir_cmd (pjoin T "lowered.mlir") (pjoin T (pathStem args.output ++ ".ll")) C,
          compile_to_object_cmd (pjoin T (pathStem args.output ++ ".ll")) args.output C] ∧
       compile_to_shared_lib_cmd (pjoin T (pathStem args.output ++ ".ll")) args.output C ∉
         toolCmds r.events) := by
  have hrc : ∀ c, (env c).returncode = 0 := fun c => (henv c).1
  have hw : ∀ c, (env c).writesOutput = true := fun c => (henv c).2
  subst hC hT hr
  rcases args with ⟨inp, out, suf, mo, mt, ml, mc, td, sl⟩
  simp only [ezmlirMain]
  rw [hread]
  have hslash1 : ∀ d n : String, d ++ "/" ++ n ≠ "--mlir-to-llvmir" := by
    intro d n he
    exact ne_pjoin_of_no_slash "--mlir-to-llvmir" d n (by decide) he.symm
  rcases td with _ | d <;> rcases sl <;>
    refine ⟨fun hsl => ?_, fun hsl => ?_⟩ <;>
    (try simp only [Bool.false_eq_true, Bool.true_eq_false] at hsl) <;>
    simp [ezmlirAfterRead, ezmlirBody, runToolStage, readFileStep, pr, fsWriteSt,
      hrc, hw, fsLookup_fsWrite_self, fsWrite, fsLookup, runCleanup, tempPathOf,
      toolCmds, printEzError, optimize_mlir_cmd, lower_to_llvm_dialect_cmd,
      translate_to_llvm_ir_cmd, compile_to_object_cmd, compile_to_shared_lib_cmd,
      pjoin, hslash1]

/-- Witness for C3: concrete shared-library run; the terminal stage is the
clang shared-library command and the llc object command never appears. -/
theorem claim3_mode_selects_terminal_stage_witness :
    toolCmds (ezmlirMain allOkEnv ezArgsStdinShared "src" [] "E").events =
      [optimize_mlir_cmd (pjoin (tempPathOf ezArgsStdinShared.temp_dir "E") "original.mlir")
         (pjoin (tempPathOf ezArgsStdinShared.temp_dir "E") "optimized.mlir")
         (resolveConfig ezArgsStdinShared),
       lower_to_llvm_dialect_cmd (pjoin (tempPathOf ezArgsStdinShared.temp_dir "E") "optimized.mlir")
         (pjoin (tempPathOf ezArgsStdinShared.temp_dir "E") "lowered.mlir")
         (resolveConfig ezArgsStdinShared),
       translate_to_llvm_ir_cmd (pjoin (tempPathOf ezArgsStdinShared.temp_dir "E") "lowered.mlir")
         (pjoin (tempPathOf ezArgsStdinShared.temp_dir "E") (pathStem ezArgsStdinShared.output ++ ".ll"))
         (resolveConfig ezArgsStdinShared),
       compile_to_shared_lib_cmd
         (pjoin (tempPathOf ezArgsStdinShared.temp_dir "E") (pathStem ezArgsStdinShared.output ++ ".ll"))
         ezArgsStdinShared.output (resolveConfig ezArgsStdinShared)] ∧
    compile_to_object_cmd
      (pjoin (tempPathOf ezArgsStdinShared.temp_dir "E") (pathStem ezArgsStdinShared.output ++ ".ll"))
      ezArgsStdinShared.output (resolveConfig ezArgsStdinShared) ∉
      toolCmds (ezmlirMain allOkEnv ezArgsStdinShared "src" [] "E").events :=
  (claim3_mode_selects_terminal_stage allOkEnv ezArgsStdinShared "src" [] "E" "src"
    (resolveConfig ezArgsStdinShared) (tempPathOf ezArgsStdinShared.temp_dir "E")
    (ezmlirMain allOkEnv ezArgsStdinShared "src" [] "E")
    rfl rfl rfl rfl (fun _ => ⟨rfl, rfl⟩)).1 rfl

/-!
## Claim C4
-/

/-- An invocation passing an explicit but empty override for `--mlir-opt`
(`--mlir-opt ""`) together with suffix `-20`. -/
def ezArgsEmptyOverride : EzArgs :=
  { input := "-", output := "out.o", suffix := "-20", mlir_opt := some "",
    mlir_translate := none, llc := none, clang := none, temp_dir := none, shared_lib := false }

/-- The spec's resolution example: suffix `-20`, an explicit override for
the code generator, an empty-string override for the translator. -/
def ezArgsSpecExample : EzArgs :=
  { input := "-", output := "out.o", suffix := "-20", mlir_opt := none,
    mlir_translate := some "", llc := some "/usr/bin/llc-custom", clang := some "clang-x",
    temp_dir := none, shared_lib := false }

/-- Counterexample for C4 as stated: an explicit override is given for the
optimizer (`--mlir-opt ""`), yet the resolved path is not that override but
the default name plus the suffix, because Python's `or` treats the empty
string as absent. -/
theorem claim4_counterexample :
    ezArgsEmptyOverride.mlir_opt = some "" ∧
    (resolveConfig ezArgsEmptyOverride).mlir_opt ≠ "" ∧
    (resolveConfig ezArgsEmptyOverride).mlir_opt = "mlir-opt-20" := by
  refine ⟨rfl, ?_, by decide⟩
  decide

/-- Claim C4 as amended: the resolved path equals the explicit override
when a non-empty override is given, and equals the default name
concatenated with the global suffix when the override is absent or is the
empty string; in particular the optimizer resolves to defaultname-suffix
and the code generator to its override. -/
theorem claim4_resolution_amended (args : EzArgs) (o c : String)
    (hllc : args.llc = some o) (ho : o ≠ "")
    (hclang : args.clang = some c) (hc : c ≠ "")
    (hopt : args.mlir_opt = none) (htr : args.mlir_translate = some "") :
    (resolveConfig args).mlir_opt = "mlir-opt" ++ args.suffix ∧
    (resolveConfig args).mlir_translate = "mlir-translate" ++ args.suffix ∧
    (resolveConfig args).llc = o ∧
    (resolveConfig args).clang = c := by
  simp [resolveConfig, pyOr, hllc, ho, hclang, hc, hopt, htr]

/-- Witness for C4 (amended) at the spec's own example: with suffix `-20`
and an override for the code generator, the optimizer resolves to
`mlir-opt-20` and the code generator to `/usr/bin/llc-custom`; the
empty-string translator override falls back to `mlir-translate-20`. -/
theorem claim4_resolution_amended_witness :
    (resolveConfig ezArgsSpecExample).mlir_opt = "mlir-opt-20" ∧
    (resolveConfig ezArgsSpecExample).mlir_translate = "mlir-translate-20" ∧
    (resolveConfig ezArgsSpecExample).llc = "/usr/bin/llc-custom" ∧
    (resolveConfig ezArgsSpecExample).clang = "clang-x" :=
  claim4_resolution_amended ezArgsSpecExample "/usr/bin/llc-custom" "clang-x"
    rfl (by decide) rfl (by decide) rfl rfl

/-!
## Claim C5
-/

/-- A tool chain whose terminal object-code invocation (recognised by its
`-filetype=obj` flag) exits 0 without writing its output; every other
invocation succeeds and writes. -/
def noWriteTerminalEnv : ToolEnv := fun c =>
  if c.getD 1 "" = "-filetype=obj" then
    { returncode := 0, writesOutput := false, outputContent := "", stderrOutput := "" }
  else
    { returncode := 0, writesOutput := true, outputContent := "tool-output", stderrOutput := "" }

/-- A typical `ezmlir.py` invocation with an explicit (caller-owned)
workspace directory `T`. -/
def ezArgsTempDirObj : EzArgs :=
  { input := "-", output := "out.o", suffix := "", mlir_opt := none, mlir_translate := none,
    llc := none, clang := none, temp_dir := some "T", shared_lib := false }

/-- Counterexample for C5 as stated: the terminal tool exits 0 without
writing `out.o`; no `StageOutputMissingError` exists — the run is treated
as a full success (exit code 0, all four stages invoked) although the
declared output file is absent. -/
theorem claim5_counterexample :
    (ezmlirMain noWriteTerminalEnv ezArgsTempDirObj "src" [] "E").exitCode = 0 ∧
    fsLookup (ezmlirMain noWriteTerminalEnv ezArgsTempDirObj "src" [] "E").fs "out.o" = none ∧
    (toolCmds (ezmlirMain noWriteTerminalEnv ezArgsTempDirObj "src" [] "E").events).length = 4 := by
  refine ⟨by decide, by decide, by decide⟩

set_option maxRecDepth 2000 in
set_option maxHeartbeats 1000000 in
/-- Claim C5 as amended: no stage runner asserts that its declared output
file exists after a zero exit status.  In particular, in object mode with a
caller-owned workspace, when the terminal code generator exits 0 without
writing, the run still completes as a success: all four stages are invoked,
the process exits 0, and the declared output file is absent.  (A missing
output of the optimize or translate stage surfaces only as a generic
`FileNotFoundError` from the orchestrator's read-back, not as a
stage-runner assertion.) -/
theorem claim5_no_output_assertion_amended (env : ToolEnv) (args : EzArgs)
    (stdinContent : String) (fs0 : FS) (ephemeralDir : String) (mlir_code d : String)
    (C : MLIRConfig) (r : RunResult)
    (hC : C = resolveConfig args)
    (hr : r = ezmlirMain env args stdinContent fs0 ephemeralDir)
    (hread : readInputArg args.input stdinContent fs0 = Except.ok mlir_code)
    (htd : args.temp_dir = some d)
    (hsl : args.shared_lib = false)
    (h1 : (env (optimize_mlir_cmd (pjoin d "original.mlir") (pjoin d "optimized.mlir") C)).returncode = 0)
    (h1w : (env (optimize_mlir_cmd (pjoin d "original.mlir") (pjoin d "optimized.mlir") C)).writesOutput = true)
    (h2 : (env (lower_to_llvm_dialect_cmd (pjoin d "optimized.mlir") (pjoin d "lowered.mlir") C)).returncode = 0)
    (h2w : (env (lower_to_llvm_dialect_cmd (pjoin d "optimized.mlir") (pjoin d "lowered.mlir") C)).writesOutput = true)
    (h3 : (env (translate_to_llvm_ir_cmd (pjoin d "lowered.mlir") (pjoin d (pathStem args.output ++ ".ll")) C)).returncode = 0)
    (h3w : (env (translate_to_llvm_ir_cmd (pjoin d "lowered.mlir") (pjoin d (pathStem args.output ++ ".ll")) C)).writesOutput = true)
    (h4 : (env (compile_to_object_cmd (pjoin d (pathStem args.output ++ ".ll")) args.output C)).returncode = 0)
    (h4w : (env (compile_to_object_cmd (pjoin d (pathStem args.output ++ ".ll")) args.output C)).writesOutput = false)
    (hout0 : fsLookup fs0 args.output = none)
    (hn1 : args.output ≠ pjoin d "original.mlir")
    (hn2 : args.output ≠ pjoin d "optimized.mlir")
    (hn3 : args.output ≠ pjoin d "lowered.mlir")
    (hn4 : args.output ≠ pjoin d (pathStem args.output ++ ".ll")) :
    r.exitCode = 0 ∧
    fsLookup r.fs args.output = none ∧
    (toolCmds r.events).length = 4 := by
  subst hC hr
  rcases args with ⟨inp, out, suf, mo, mt, ml, mc, td, sl⟩
  simp only at htd hsl
  subst htd hsl
  simp only [ezmlirMain]
  rw [hread]
  simp only [pjoin] at h1 h1w h2 h2w h3 h3w h4 h4w hn1 hn2 hn3 hn4
  simp [ezmlirAfterRead, ezmlirBody, runToolStage, readFileStep, pr, fsWriteSt,
    h1, h1w, h2, h2w, h3, h3w, h4, h4w, hout0, hn1, hn2, hn3, hn4,
    fsWrite, fsLookup, runCleanup, tempPathOf, toolCmds, pjoin]

/-- Witness for C5 (amended): concrete run in which the terminal tool
exits 0 without writing; the driver exits 0 with `out.o` absent. -/
theorem claim5_no_output_assertion_amended_witness :
    (ezmlirMain noWriteTerminalEnv ezArgsTempDirObj "src" [] "E").exitCode = 0 ∧
    fsLookup (ezmlirMain noWriteTerminalEnv ezArgsTempDirObj "src" [] "E").fs
      ezArgsTempDirObj.output = none ∧
    (toolCmds (ezmlirMain noWriteTerminalEnv ezArgsTempDirObj "src" [] "E").events).length = 4 :=
  claim5_no_output_assertion_amended noWriteTerminalEnv ezArgsTempDirObj "src" [] "E" "src" "T"
    (resolveConfig ezArgsTempDirObj)
    (ezmlirMain noWriteTerminalEnv ezArgsTempDirObj "src" [] "E")
    rfl rfl rfl rfl rfl
    (by decide) (by decide) (by decide) (by decide) (by decide) (by decide) (by decide) (by decide)
    rfl (by decide) (by decide) (by decide) (by decide)

/-!
## Claim C6
-/

set_option maxRecDepth 4000 in
/-- Counterexample for C6 as stated: the optimize tool exits 2 after
writing `optimize error` on its (inherited, uncaptured) stderr.  The
driver's failure report is printed on standard output — the process stderr
stream holds only the tool's own passthrough bytes, not the report — and
the report does not contain the tool's stderr text. -/
theorem claim6_counterexample :
    (ezmlirMain failOptimizeEnv ezArgsStdinObj "src" [] "E").stdoutLines.getLast? =
      some ("Error running command: " ++ calledProcessErrorStr 2
        (optimize_mlir_cmd (pjoin "E" "original.mlir") (pjoin "E" "optimized.mlir")
          (resolveConfig ezArgsStdinObj))) ∧
    (ezmlirMain failOptimizeEnv ezArgsStdinObj "src" [] "E").stderrLines = ["optimize error"] ∧
    ¬ ("Error running command: " ++ calledProcessErrorStr 2
        (optimize_mlir_cmd (pjoin "E" "original.mlir") (pjoin "E" "optimized.mlir")
          (resolveConfig ezArgsStdinObj))) ∈
      (ezmlirMain failOptimizeEnv ezArgsStdinObj "src" [] "E").stderrLines ∧
    ¬ ("optimize error").data <:+: ("Error running command: " ++ calledProcessErrorStr 2
        (optimize_mlir_cmd (pjoin "E" "original.mlir") (pjoin "E" "optimized.mlir")
          (resolveConfig ezArgsStdinObj))).data := by
  refine ⟨by decide, by decide, by decide, by decide⟩

set_option maxRecDepth 2000 in
set_option maxHeartbeats 2000000 in
/-- Claim C6 as amended: when a stage's tool exits non-zero, the failure
report carries the failing command (tool path and full argument list,
which identifies the stage) and the exit code, but not the tool's stderr,
which the driver never captures (it passes through to the process stderr
stream directly); the report itself is printed on standard output, not on
the error channel, and the process exits 1. -/
theorem claim6_failure_report_amended (env : ToolEnv) (args : EzArgs)
    (stdinContent : String) (fs0 : FS) (ephemeralDir : String) (mlir_code : String) (k : Nat)
    (C : MLIRConfig) (T : String) (L : List (List String)) (r : RunResult)
    (hC : C = resolveConfig args) (hT : T = tempPathOf args.temp_dir ephemeralDir)
    (hL : L = ezStageCmds C T args.output args.shared_lib)
    (hr : r = ezmlirMain env args stdinContent fs0 ephemeralDir)
    (hread : readInputArg args.input stdinContent fs0 = Except.ok mlir_code)
    (hk : k ≠ 0) :
    ((env (L.getD 0 [])).returncode = k →
       r.stdoutLines.getLast? =
         some ("Error running command: " ++ calledProcessErrorStr k (L.getD 0 [])) ∧
       r.stderrLines = (L.take 1).map (fun c => (env c).stderrOutput) ∧
       r.exitCode = 1) ∧
    ((env (L.getD 0 [])).returncode = 0 → (env (L.getD 0 [])).writesOutput = true →
     (env (L.getD 1 [])).returncode = k →
       r.stdoutLines.getLast? =
         some ("Error running command: " ++ calledProcessErrorStr k (L.getD 1 [])) ∧
       r.stderrLines = (L.take 2).map (fun c => (env c).stderrOutput) ∧
       r.exitCode = 1) ∧
    ((env (L.getD 0 [])).returncode = 0 → (env (L.getD 0 [])).writesOutput = true →
     (env (L.getD 1 [])).returncode = 0 →
     (env (L.getD 2 [])).returncode = k →
       r.stdoutLines.getLast? =
         some ("Error running command: " ++ calledProcessErrorStr k (L.getD 2 [])) ∧
       r.stderrLines = (L.take 3).map (fun c => (env c).stderrOutput) ∧
       r.exitCode = 1) ∧
    ((env (L.getD 0 [])).returncode = 0 → (env (L.getD 0 [])).writesOutput = true →
     (env (L.getD 1 [])).returncode = 0 →
     (env (L.getD 2 [])).returncode = 0 → (env (L.getD 2 [])).writesOutput = true →
     (env (L.getD 3 [])).returncode = k →
       r.stdoutLines.getLast? =
         some ("Error running command: " ++ calledProcessErrorStr k (L.getD 3 [])) ∧
       r.stderrLines = (L.take 4).map (fun c => (env c).stderrOutput) ∧
       r.exitCode = 1) := by
  subst hC hT hL hr
  rcases args with ⟨inp, out, suf, mo, mt, ml, mc, td, sl⟩
  simp only [ezmlirMain]
  rw [hread]
  rcases td with _ | d <;> rcases sl <;>
    refine ⟨fun h1 => ?_, fun h1 h1w h2 => ?_, fun h1 h1w h2 h3 => ?_,
            fun h1 h1w h2 h3 h3w h4 => ?_⟩ <;>
    simp only [ezStageCmds, List.getD, List.get?, Option.getD, tempPathOf, pjoin,
      Bool.false_eq_true, if_true, if_false, ite_true, ite_false] at * <;>
    simp [ezmlirAfterRead, ezmlirBody, runToolStage, readFileStep, pr, fsWriteSt,
      hk, fsLookup_fsWrite_self, fsWrite, fsLookup, runCleanup, tempPathOf,
      toolCmds, pjoin, printEzError, ezStageCmds, *]

/-- Witness for C6 (amended): optimize fails with exit 2; the report line
is the last stdout line and the driver stderr is only tool passthrough. -/
theorem claim6_failure_report_amended_witness :
    (ezmlirMain failOptimizeEnv ezArgsStdinObj "src" [] "E").stdoutLines.getLast? =
      some ("Error running command: " ++ calledProcessErrorStr 2
        ((ezStageCmds (resolveConfig ezArgsStdinObj) (tempPathOf ezArgsStdinObj.temp_dir "E")
          ezArgsStdinObj.output ezArgsStdinObj.shared_lib).getD 0 [])) ∧
    (ezmlirMain failOptimizeEnv ezArgsStdinObj "src" [] "E").stderrLines =
      ((ezStageCmds (resolveConfig ezArgsStdinObj) (tempPathOf ezArgsStdinObj.temp_dir "E")
          ezArgsStdinObj.output ezArgsStdinObj.shared_lib).take 1).map
        (fun c => (failOptimizeEnv c).stderrOutput) ∧
    (ezmlirMain failOptimizeEnv ezArgsStdinObj "src" [] "E").exitCode = 1 :=
  (claim6_failure_report_amended failOptimizeEnv ezArgsStdinObj "src" [] "E" "src" 2
    (resolveConfig ezArgsStdinObj) (tempPathOf ezArgsStdinObj.temp_dir "E")
    (ezStageCmds (resolveConfig ezArgsStdinObj) (tempPathOf ezArgsStdinObj.temp_dir "E")
      ezArgsStdinObj.output ezArgsStdinObj.shared_lib)
    (ezmlirMain failOptimizeEnv ezArgsStdinObj "src" [] "E")
    rfl rfl rfl rfl rfl (by decide)).1 (by decide)

/-!
## Claim C7
-/

/-- Claim C7: for every byte sequence `B`, running `ezmlir.py` with the
stdin sentinel `-` and `B` on standard input produces exactly the same run
(same events, same file system, same output, same exit status) as running
it with a named input file whose contents are `B`, everything else equal. -/
theorem claim7_stdin_file_equivalence (env : ToolEnv) (args : EzArgs)
    (stdinContent B : String) (fs0 : FS) (ephemeralDir : String)
    (hne : args.input ≠ "-")
    (hfile : fsLookup fs0 args.input = some B) :
    ezmlirMain env { args with input := "-" } B fs0 ephemeralDir =
      ezmlirMain env args stdinContent fs0 ephemeralDir := by
  rcases args with ⟨inp, out, suf, mo, mt, ml, mc, td, sl⟩
  simp only at hne hfile
  simp [ezmlirMain, readInputArg, hne, hfile, resolveConfig]

/-- Witness for C7: the file `in.mlir` holds `code`; the stdin run with
`code` equals the file run. -/
theorem claim7_stdin_file_equivalence_witness :
    ezmlirMain allOkEnv { ezArgsFileObj with input := "-" } "code" [("in.mlir", "code")] "E" =
      ezmlirMain allOkEnv ezArgsFileObj "ignored stdin" [("in.mlir", "code")] "E" :=
  claim7_stdin_file_equivalence allOkEnv ezArgsFileObj "ignored stdin" "code"
    [("in.mlir", "code")] "E" (by decide) rfl

/-!
## Lemmas for the `main.py` claims
-/

theorem string_eq_of_data_eq (a b : String) (h : a.data = b.data) : a = b :=
  congrArg String.mk h

theorem pjoin_inj_right (d a b : String) (h : a ≠ b) : pjoin d a ≠ pjoin d b := by
  intro he
  apply h
  have hd : (d.data ++ [Char.ofNat 47]) ++ a.data = (d.data ++ [Char.ofNat 47]) ++ b.data := by
    have h1 : (pjoin d a).data = (d.data ++ [Char.ofNat 47]) ++ a.data := rfl
    have h2 : (pjoin d b).data = (d.data ++ [Char.ofNat 47]) ++ b.data := rfl
    rw [← h1, ← h2, he]
  exact string_eq_of_data_eq a b (List.append_cancel_left hd)

theorem harness_ne_pjoin (d n : String) : "test_harness.c" ≠ pjoin d n :=
  ne_pjoin_of_no_slash "test_harness.c" d n (by decide)

theorem toolCmds_nil : toolCmds [] = [] := rfl

theorem toolCmds_cons_runTool (c : List String) (evs : List Event) :
    toolCmds (Event.runTool c :: evs) = c :: toolCmds evs := by
  simp [toolCmds]

theorem toolCmds_cons_writeFile (p : String) (evs : List Event) :
    toolCmds (Event.writeFile p :: evs) = toolCmds evs := by
  simp [toolCmds]

theorem toolCmds_cons_removeFile (p : String) (evs : List Event) :
    toolCmds (Event.removeFile p :: evs) = toolCmds evs := by
  simp [toolCmds]

theorem toolCmds_cons_cleanupDir (d : String) (evs : List Event) :
    toolCmds (Event.cleanupDir d :: evs) = toolCmds evs := by
  simp [toolCmds]

theorem removedPaths_nil : removedPaths [] = [] := rfl

theorem removedPaths_cons_runTool (c : List String) (evs : List Event) :
    removedPaths (Event.runTool c :: evs) = removedPaths evs := by
  simp [removedPaths]

theorem removedPaths_cons_writeFile (p : String) (evs : List Event) :
    removedPaths (Event.writeFile p :: evs) = removedPaths evs := by
  simp [removedPaths]

theorem removedPaths_cons_removeFile (p : String) (evs : List Event) :
    removedPaths (Event.removeFile p :: evs) = p :: removedPaths evs := by
  simp [removedPaths]

theorem toolCmds_cleanupFiles (files : List String) (st : PipeState) :
    toolCmds (cleanupFiles files st).events = toolCmds st.events := by
  induction files generalizing st with
  | nil => rfl
  | cons f fs ih =>
    rw [cleanupFiles]
    split
    · rw [ih]
      simp [toolCmds]
    · rw [ih]

/-!
## Claim C8
-/

set_option maxRecDepth 2000 in
set_option maxHeartbeats 1000000 in
/-- Claim C8: when `test_harness.c` does not exist, a `main.py` run whose
four tool invocations all succeed skips the link-and-execute step (only
the four stage commands are invoked), completes with exit status 0, and
carries no captured execution output. -/
theorem claim8_harness_absent_skips (env : ToolEnv) (exeEnv : String → ExeResult)
    (args : MainArgs) (fs0 : FS) (C : MLIRConfig) (r : MainRunResult)
    (hC : C = { mlir_opt := args.mlir_opt, mlir_translate := args.mlir_translate,
                llc := args.llc, clang := args.clang })
    (hr : r = mainPyMain env exeEnv args fs0)
    (hh : fsLookup fs0 "test_harness.c" = none)
    (h1 : (env (optimize_mlir_cmd (pjoin args.output_dir "original.mlir") (pjoin args.output_dir "optimized.mlir") C)).returncode = 0)
    (h1w : (env (optimize_mlir_cmd (pjoin args.output_dir "original.mlir") (pjoin args.output_dir "optimized.mlir") C)).writesOutput = true)
    (h2 : (env (lower_to_llvm_dialect_cmd (pjoin args.output_dir "optimized.mlir") (pjoin args.output_dir "lowered.mlir") C)).returncode = 0)
    (h2w : (env (lower_to_llvm_dialect_cmd (pjoin args.output_dir "optimized.mlir") (pjoin args.output_dir "lowered.mlir") C)).writesOutput = true)
    (h3 : (env (translate_to_llvm_ir_cmd (pjoin args.output_dir "lowered.mlir") (pjoin args.output_dir "matmul_chain.ll") C)).returncode = 0)
    (h3w : (env (translate_to_llvm_ir_cmd (pjoin args.output_dir "lowered.mlir") (pjoin args.output_dir "matmul_chain.ll") C)).writesOutput = true)
    (h4 : (env (compile_to_object_cmd (pjoin args.output_dir "matmul_chain.ll") (pjoin args.output_dir "matmul_chain.o") C)).returncode = 0)
    (h4w : (env (compile_to_object_cmd (pjoin args.output_dir "matmul_chain.ll") (pjoin args.output_dir "matmul_chain.o") C)).writesOutput = true) :
    r.exitCode = 0 ∧
    r.executionOutput = none ∧
    toolCmds r.events =
      [optimize_mlir_cmd (pjoin args.output_dir "original.mlir") (pjoin args.output_dir "optimized.mlir") C,
       lower_to_llvm_dialect_cmd (pjoin args.output_dir "optimized.mlir") (pjoin args.output_dir "lowered.mlir") C,
       translate_to_llvm_ir_cmd (pjoin args.output_dir "lowered.mlir") (pjoin args.output_dir "matmul_chain.ll") C,
       compile_to_object_cmd (pjoin args.output_dir "matmul_chain.ll") (pjoin args.output_dir "matmul_chain.o") C] := by
  subst hC hr
  rcases args with ⟨a1, a2, a3, a4, kt, od⟩
  simp only at h1 h1w h2 h2w h3 h3w h4 h4w
  rcases kt <;>
    simp [mainPyMain, mainPyBody, printMainError, runToolStage, readFileStep, pr, fsWriteSt,
      h1, h1w, h2, h2w, h3, h3w, h4, h4w, hh, harness_ne_pjoin,
      fsWrite, fsLookup, toolCmds_cleanupFiles, toolCmds_append, toolCmds_nil,
      toolCmds_cons_runTool, toolCmds_cons_writeFile, toolCmds_cons_removeFile,
      toolCmds_cons_cleanupDir]

/-- Witness for C8: no harness file on disk; the run exits 0 with no
captured execution output and only the four stage commands invoked. -/
theorem claim8_harness_absent_skips_witness :
    (mainPyMain allOkEnv exeEnvNonzero mainArgsDefault []).exitCode = 0 ∧
    (mainPyMain allOkEnv exeEnvNonzero mainArgsDefault []).executionOutput = none ∧
    toolCmds (mainPyMain allOkEnv exeEnvNonzero mainArgsDefault []).events =
      [optimize_mlir_cmd (pjoin mainArgsDefault.output_dir "original.mlir")
         (pjoin mainArgsDefault.output_dir "optimized.mlir")
         { mlir_opt := mainArgsDefault.mlir_opt, mlir_translate := mainArgsDefault.mlir_translate,
           llc := mainArgsDefault.llc, clang := mainArgsDefault.clang },
       lower_to_llvm_dialect_cmd (pjoin mainArgsDefault.output_dir "optimized.mlir")
         (pjoin mainArgsDefault.output_dir "lowered.mlir")
         { mlir_opt := mainArgsDefault.mlir_opt, mlir_translate := mainArgsDefault.mlir_translate,
           llc := mainArgsDefault.llc, clang := mainArgsDefault.clang },
       translate_to_llvm_ir_cmd (pjoin mainArgsDefault.output_dir "lowered.mlir")
         (pjoin mainArgsDefault.output_dir "matmul_chain.ll")
         { mlir_opt := mainArgsDefault.mlir_opt, mlir_translate := mainArgsDefault.mlir_translate,
           llc := mainArgsDefault.llc, clang := mainArgsDefault.clang },
       compile_to_object_cmd (pjoin mainArgsDefault.output_dir "matmul_chain.ll")
         (pjoin mainArgsDefault.output_dir "matmul_chain.o")
         { mlir_opt := mainArgsDefault.mlir_opt, mlir_translate := mainArgsDefault.mlir_translate,
           llc := mainArgsDefault.llc, clang := mainArgsDefault.clang }] :=
  claim8_harness_absent_skips allOkEnv exeEnvNonzero mainArgsDefault []
    { mlir_opt := mainArgsDefault.mlir_opt, mlir_translate := mainArgsDefault.mlir_translate,
      llc := mainArgsDefault.llc, clang := mainArgsDefault.clang }
    (mainPyMain allOkEnv exeEnvNonzero mainArgsDefault [])
    rfl rfl rfl rfl rfl rfl rfl rfl rfl rfl rfl

/-!
## Claim C10
-/

set_option maxRecDepth 2000 in
set_option maxHeartbeats 1000000 in
/-- Claim C10: when the harness is present, linked and run, the captured
result (including its exit status) is stored but never inspected: for any
behaviour of the harness executable — any exit status whatsoever — the
driver still finishes with exit status 0 and merely records the captured
output. -/
theorem claim10_harness_exit_ignored (env : ToolEnv) (exeEnv : String → ExeResult)
    (args : MainArgs) (fs0 : FS) (hcontent : String) (C : MLIRConfig) (r : MainRunResult)
    (hC : C = { mlir_opt := args.mlir_opt, mlir_translate := args.mlir_translate,
                llc := args.llc, clang := args.clang })
    (hr : r = mainPyMain env exeEnv args fs0)
    (hh : fsLookup fs0 "test_harness.c" = some hcontent)
    (h1 : (env (optimize_mlir_cmd (pjoin args.output_dir "original.mlir") (pjoin args.output_dir "optimized.mlir") C)).returncode = 0)
    (h1w : (env (optimize_mlir_cmd (pjoin args.output_dir "original.mlir") (pjoin args.output_dir "optimized.mlir") C)).writesOutput = true)
    (h2 : (env (lower_to_llvm_dialect_cmd (pjoin args.output_dir "optimized.mlir") (pjoin args.output_dir "lowered.mlir") C)).returncode = 0)
    (h2w : (env (lower_to_llvm_dialect_cmd (pjoin args.output_dir "optimized.mlir") (pjoin args.output_dir "lowered.mlir") C)).writesOutput = true)
    (h3 : (env (translate_to_llvm_ir_cmd (pjoin args.output_dir "lowered.mlir") (pjoin args.output_dir "matmul_chain.ll") C)).returncode = 0)
    (h3w : (env (translate_to_llvm_ir_cmd (pjoin args.output_dir "lowered.mlir") (pjoin args.output_dir "matmul_chain.ll") C)).writesOutput = true)
    (h4 : (env (compile_to_object_cmd (pjoin args.output_dir "matmul_chain.ll") (pjoin args.output_dir "matmul_chain.o") C)).returncode = 0)
    (h4w : (env (compile_to_object_cmd (pjoin args.output_dir "matmul_chain.ll") (pjoin args.output_dir "matmul_chain.o") C)).writesOutput = true)
    (h5 : (env (create_executable_cmd (pjoin args.output_dir "matmul_chain.o") "test_harness.c" (pjoin args.output_dir "matmul_test") C)).returncode = 0)
    (h5w : (env (create_executable_cmd (pjoin args.output_dir "matmul_chain.o") "test_harness.c" (pjoin args.output_dir "matmul_test") C)).writesOutput = true) :
    r.exitCode = 0 ∧
    r.executionOutput = some (exeEnv ("./" ++ pjoin args.output_dir "matmul_test")) := by
  subst hC hr
  rcases args with ⟨a1, a2, a3, a4, kt, od⟩
  simp only at h1 h1w h2 h2w h3 h3w h4 h4w h5 h5w
  rcases kt <;>
    simp [mainPyMain, mainPyBody, printMainError, runToolStage, readFileStep, pr, fsWriteSt,
      h1, h1w, h2, h2w, h3, h3w, h4, h4w, h5, h5w, hh, harness_ne_pjoin,
      fsWrite, fsLookup]

/-- Witness for C10: the harness exits with status 3, different stdout,
yet the driver exits 0 and records the captured result. -/
theorem claim10_harness_exit_ignored_witness :
    (mainPyMain allOkEnv exeEnvNonzero mainArgsDefault [("test_harness.c", "int main...")]).exitCode = 0 ∧
    (mainPyMain allOkEnv exeEnvNonzero mainArgsDefault [("test_harness.c", "int main...")]).executionOutput =
      some (exeEnvNonzero ("./" ++ pjoin mainArgsDefault.output_dir "matmul_test")) :=
  claim10_harness_exit_ignored allOkEnv exeEnvNonzero mainArgsDefault
    [("test_harness.c", "int main...")] "int main..."
    { mlir_opt := mainArgsDefault.mlir_opt, mlir_translate := mainArgsDefault.mlir_translate,
      llc := mainArgsDefault.llc, clang := mainArgsDefault.clang }
    (mainPyMain allOkEnv exeEnvNonzero mainArgsDefault [("test_harness.c", "int main...")])
    rfl rfl rfl rfl rfl rfl rfl rfl rfl rfl rfl rfl rfl

/-!
## Lemmas for claim C9
-/

theorem runToolStage_eq_error_iff (env : ToolEnv) (cmd : List String) (out : String)
    (st : PipeState) (e : PyError) (st2 : PipeState) :
    runToolStage env cmd out st = Except.error (e, st2) ↔
      (¬ (env cmd).returncode = 0 ∧
       e = PyError.calledProcessError (env cmd).returncode cmd ∧
       st2 = { st with events := st.events ++ [Event.runTool cmd],
                       stderrLines := st.stderrLines ++ [(env cmd).stderrOutput],
                       fs := if (env cmd).writesOutput then
                               fsWrite st.fs out (env cmd).outputContent
                             else st.fs }) := by
  rw [runToolStage]
  split
  · simp_all
  · constructor
    · intro h
      injection h with h2
      exact ⟨by assumption, (Prod.mk.injEq _ _ _ _ ▸ congrArg id h2).imp_left Eq.symm |>.1 ▸ rfl, by
        cases h2; rfl⟩
    · rintro ⟨h1, h2, h3⟩
      subst h2 h3
      rfl

theorem runToolStage_eq_ok_iff (env : ToolEnv) (cmd : List String) (out : String)
    (st : PipeState) (st2 : PipeState) :
    runToolStage env cmd out st = Except.ok st2 ↔
      ((env cmd).returncode = 0 ∧
       st2 = { st with events := st.events ++ [Event.runTool cmd],
                       stderrLines := st.stderrLines ++ [(env cmd).stderrOutput],
                       fs := if (env cmd).writesOutput then
                               fsWrite st.fs out (env cmd).outputContent
                             else st.fs }) := by
  rw [runToolStage]
  split
  · constructor
    · intro h
      injection h with h2
      exact ⟨by assumption, h2.symm⟩
    · rintro ⟨h1, h2⟩
      subst h2
      rfl
  · simp_all

theorem readFileStep_eq_error_iff (path : String) (st : PipeState) (e : PyError)
    (st2 : PipeState) :
    readFileStep path st = Except.error (e, st2) ↔
      (fsLookup st.fs path = none ∧ e = PyError.fileNotFoundError path ∧ st2 = st) := by
  rw [readFileStep]
  split
  · simp_all
  · simp_all
    exact ⟨fun ⟨a, b⟩ => ⟨a.symm, b.symm⟩, fun ⟨a, b⟩ => ⟨a.symm, b.symm⟩⟩

theorem readFileStep_eq_ok_iff (path : String) (st : PipeState) (c : String)
    (st2 : PipeState) :
    readFileStep path st = Except.ok (c, st2) ↔
      (fsLookup st.fs path = some c ∧ st2 = st) := by
  rw [readFileStep]
  split
  · simp_all
    intro _
    exact eq_comm
  · simp_all

set_option maxRecDepth 4000 in
set_option maxHeartbeats 2000000 in
/-- The try block of `main.py` removes nothing itself, and its tracked
temporary-file list is always a prefix of
`[original.mlir, optimized.mlir, lowered.mlir]` (in the output directory):
the `.ll` and `.o` artifacts are never appended to it. -/
theorem mainPyBody_tracked_inv (env : ToolEnv) (exeEnv : String → ExeResult)
    (config : MLIRConfig) (output_dir : String) (fs0 : FS) :
    removedPaths (mainPyBody env exeEnv config output_dir fs0).st.events = [] ∧
    (mainPyBody env exeEnv config output_dir fs0).temp_files <+:
      [pjoin output_dir "original.mlir", pjoin output_dir "optimized.mlir",
       pjoin output_dir "lowered.mlir"] := by
  simp only [mainPyBody, pr, fsWriteSt]
  repeat' split
  all_goals
    simp_all [runToolStage_eq_error_iff, runToolStage_eq_ok_iff,
      readFileStep_eq_error_iff, readFileStep_eq_ok_iff,
      removedPaths_append, removedPaths_nil, removedPaths_cons_runTool,
      removedPaths_cons_writeFile, removedPaths, List.cons_prefix_cons, List.nil_prefix]

theorem events_cleanupFiles_subset (files : List String) (st : PipeState) (p : String)
    (hp : p ∈ removedPaths (cleanupFiles files st).events) :
    p ∈ removedPaths st.events ∨ p ∈ files := by
  induction files generalizing st with
  | nil =>
    rw [cleanupFiles] at hp
    exact Or.inl hp
  | cons f fs ih =>
    rw [cleanupFiles] at hp
    split at hp
    · rcases ih _ hp with h | h
      · rw [removedPaths_append] at h
        rcases List.mem_append.mp h with h2 | h2
        · exact Or.inl h2
        · simp [removedPaths] at h2
          exact Or.inr (by simp [h2])
      · exact Or.inr (by simp [h])
    · rcases ih _ hp with h | h
      · exact Or.inl h
      · exact Or.inr (by simp [h])

theorem fsLookup_fsErase_ne (fs : FS) (f q : String) (h : ¬ q = f) :
    fsLookup (fsErase fs f) q = fsLookup fs q := by
  induction fs with
  | nil => rfl
  | cons a l ih =>
    rcases a with ⟨key, c⟩
    by_cases hk : key = f
    · subst hk
      have hdrop : fsErase ((key, c) :: l) key = fsErase l key := by
        simp [fsErase]
      rw [hdrop, fsErase] at *
      rw [ih]
      have : fsLookup ((key, c) :: l) q = fsLookup l q := by
        rw [fsLookup]
        simp [h]
      rw [this]
    · have hkeep : fsErase ((key, c) :: l) f = (key, c) :: fsErase l f := by
        simp [fsErase, hk]
      rw [hkeep, fsLookup, fsLookup, ih]

theorem fsLookup_cleanupFiles_ne (files : List String) (st : PipeState) (q : String)
    (hq : ∀ f ∈ files, ¬ q = f) :
    fsLookup (cleanupFiles files st).fs q = fsLookup st.fs q := by
  induction files generalizing st with
  | nil => rfl
  | cons f fs ih =>
    rw [cleanupFiles]
    split
    · rw [ih _ (fun g hg => hq g (List.mem_cons_of_mem f hg))]
      exact fsLookup_fsErase_ne st.fs f q (hq f (List.mem_cons_self f fs))
    · exact ih _ (fun g hg => hq g (List.mem_cons_of_mem f hg))

theorem printMainError_events (e? : Option PyError) (st : PipeState) :
    (printMainError e? st).events = st.events := by
  rcases e? with _ | e
  · rfl
  · cases e <;> rfl

theorem printMainError_fs (e? : Option PyError) (st : PipeState) :
    (printMainError e? st).fs = st.fs := by
  rcases e? with _ | e
  · rfl
  · cases e <;> rfl

/-!
## Claim C9
-/

set_option maxRecDepth 2000 in
set_option maxHeartbeats 2000000 in
/-- Claim C9: in `main.py`, only `original.mlir`, `optimized.mlir` and
`lowered.mlir` (in the output directory) are ever removed by the tracked
cleanup, in every run; `matmul_chain.ll` and `matmul_chain.o` are never
tracked, so once written they survive the run — shown here for a run in
which the terminal object stage fails after the `.ll` and `.o` files have
been written, with the keep-temporaries flag false. -/
theorem claim9_ll_and_o_never_cleaned (env : ToolEnv) (exeEnv : String → ExeResult)
    (args : MainArgs) (fs0 : FS) (C : MLIRConfig) (r : MainRunResult) (k : Nat)
    (hC : C = { mlir_opt := args.mlir_opt, mlir_translate := args.mlir_translate,
                llc := args.llc, clang := args.clang })
    (hr : r = mainPyMain env exeEnv args fs0) :
    ((removedPaths r.events).all (fun p =>
        decide (p = pjoin args.output_dir "original.mlir") ||
        decide (p = pjoin args.output_dir "optimized.mlir") ||
        decide (p = pjoin args.output_dir "lowered.mlir")) = true) ∧
    ((env (optimize_mlir_cmd (pjoin args.output_dir "original.mlir") (pjoin args.output_dir "optimized.mlir") C)).returncode = 0 →
     (env (optimize_mlir_cmd (pjoin args.output_dir "original.mlir") (pjoin args.output_dir "optimized.mlir") C)).writesOutput = true →
     (env (lower_to_llvm_dialect_cmd (pjoin args.output_dir "optimized.mlir") (pjoin args.output_dir "lowered.mlir") C)).returncode = 0 →
     (env (lower_to_llvm_dialect_cmd (pjoin args.output_dir "optimized.mlir") (pjoin args.output_dir "lowered.mlir") C)).writesOutput = true →
     (env (translate_to_llvm_ir_cmd (pjoin args.output_dir "lowered.mlir") (pjoin args.output_dir "matmul_chain.ll") C)).returncode = 0 →
     (env (translate_to_llvm_ir_cmd (pjoin args.output_dir "lowered.mlir") (pjoin args.output_dir "matmul_chain.ll") C)).writesOutput = true →
     (env (compile_to_object_cmd (pjoin args.output_dir "matmul_chain.ll") (pjoin args.output_dir "matmul_chain.o") C)).returncode = k →
     k ≠ 0 →
     (env (compile_to_object_cmd (pjoin args.output_dir "matmul_chain.ll") (pjoin args.output_dir "matmul_chain.o") C)).writesOutput = true →
     args.keep_temps = false →
       fsLookup r.fs (pjoin args.output_dir "matmul_chain.ll") ≠ none ∧
       fsLookup r.fs (pjoin args.output_dir "matmul_chain.o") ≠ none ∧
       r.exitCode = 1) := by
  subst hC hr
  rcases args with ⟨a1, a2, a3, a4, kt, od⟩
  simp only
  constructor
  · rw [List.all_eq_true]
    intro p hp
    obtain ⟨hno, hpre⟩ := mainPyBody_tracked_inv env exeEnv
      { mlir_opt := a1, mlir_translate := a2, llc := a3, clang := a4 } od fs0
    simp only [mainPyMain] at hp
    rcases kt with _ | _
    · -- keep_temps = false: cleanup ran
      simp only [if_false, Bool.false_eq_true] at hp
      rcases events_cleanupFiles_subset _ _ _ hp with h | h
      · rw [printMainError_events, hno] at h
        simp at h
      · have hmem := hpre.subset h
        simp only [List.mem_cons, List.not_mem_nil, or_false] at hmem
        rcases hmem with h1 | h1 | h1 <;> simp [h1]
    · -- keep_temps = true: no removals at all
      simp only [if_true] at hp
      rw [printMainError_events, hno] at hp
      simp at hp
  · intro h1 h1w h2 h2w h3 h3w h4 hk h4w hkt
    subst hkt
    have e1 : ¬ pjoin od "matmul_chain.ll" = pjoin od "original.mlir" :=
      pjoin_inj_right od "matmul_chain.ll" "original.mlir" (by decide)
    have e2 : ¬ pjoin od "matmul_chain.ll" = pjoin od "optimized.mlir" :=
      pjoin_inj_right od "matmul_chain.ll" "optimized.mlir" (by decide)
    have e3 : ¬ pjoin od "matmul_chain.ll" = pjoin od "lowered.mlir" :=
      pjoin_inj_right od "matmul_chain.ll" "lowered.mlir" (by decide)
    have e4 : ¬ pjoin od "matmul_chain.o" = pjoin od "original.mlir" :=
      pjoin_inj_right od "matmul_chain.o" "original.mlir" (by decide)
    have e5 : ¬ pjoin od "matmul_chain.o" = pjoin od "optimized.mlir" :=
      pjoin_inj_right od "matmul_chain.o" "optimized.mlir" (by decide)
    have e6 : ¬ pjoin od "matmul_chain.o" = pjoin od "lowered.mlir" :=
      pjoin_inj_right od "matmul_chain.o" "lowered.mlir" (by decide)
    have e7 : ¬ pjoin od "matmul_chain.ll" = pjoin od "matmul_chain.o" :=
      pjoin_inj_right od "matmul_chain.ll" "matmul_chain.o" (by decide)
    simp only [mainPyMain]
    simp [mainPyBody, runToolStage, readFileStep, pr, fsWriteSt,
      h1, h1w, h2, h2w, h3, h3w, h4, h4w, hk, fsWrite, fsLookup,
      fsLookup_cleanupFiles_ne, printMainError_fs, printMainError,
      e1, e2, e3, e4, e5, e6, e7]

/-- Witness for C9: the object stage fails with exit 2 after `.ll` and a
partial `.o` were written and the keep-temporaries flag is false; only the
three tracked `.mlir` files are removed, the `.ll` and `.o` files remain
on disk, and the run exits 1. -/
theorem claim9_ll_and_o_never_cleaned_witness :
    ((removedPaths (mainPyMain failObjectWriteEnv exeEnvNonzero mainArgsDefault []).events).all
      (fun p =>
        decide (p = pjoin mainArgsDefault.output_dir "original.mlir") ||
        decide (p = pjoin mainArgsDefault.output_dir "optimized.mlir") ||
        decide (p = pjoin mainArgsDefault.output_dir "lowered.mlir")) = true) ∧
    fsLookup (mainPyMain failObjectWriteEnv exeEnvNonzero mainArgsDefault []).fs
      (pjoin mainArgsDefault.output_dir "matmul_chain.ll") ≠ none ∧
    fsLookup (mainPyMain failObjectWriteEnv exeEnvNonzero mainArgsDefault []).fs
      (pjoin mainArgsDefault.output_dir "matmul_chain.o") ≠ none ∧
    (mainPyMain failObjectWriteEnv exeEnvNonzero mainArgsDefault []).exitCode = 1 := by
  have h := claim9_ll_and_o_never_cleaned failObjectWriteEnv exeEnvNonzero mainArgsDefault []
    { mlir_opt := mainArgsDefault.mlir_opt, mlir_translate := mainArgsDefault.mlir_translate,
      llc := mainArgsDefault.llc, clang := mainArgsDefault.clang }
    (mainPyMain failObjectWriteEnv exeEnvNonzero mainArgsDefault []) 2 rfl rfl
  have hc := h.2 (by decide) (by decide) (by decide) (by decide) (by decide) (by decide)
    (by decide) (by decide) (by decide) rfl
  exact ⟨h.1, hc.1, hc.2.1, hc.2.2⟩
